import Mathlib

/-!
Shallow embedding of the requirements-dashboard engine in
`src/frontend/src/pages/Dashboard.js`, together with theorems settling the
frozen claims about its query state, fetch orchestration, stats aggregation,
cost model, CSV export encoder, and Jira push error classification.

JavaScript numbers that the dashboard manipulates are modelled as `ℚ`
(all arithmetic in the component is exact on the values it handles);
the JS `NaN`/`null`/`undefined` family, which the code guards with `|| 0`,
is modelled by an explicit `JsNum.nan` constructor.  Strings are modelled
as `String` / `List Char`.
-/

/-- Model of a JS numeric field that may be absent or not-a-number.
`nan` stands for any JS-falsy non-numeric value (`NaN`, `null`, `undefined`);
`num q` is an ordinary (finite) number. -/
inductive JsNum where
  | nan : JsNum
  | num : ℚ → JsNum
deriving DecidableEq

/-- The JS idiom `x || 0` applied to a numeric field: every falsy value
(`NaN`, `null`, `undefined`, and `0` itself) becomes `0`; all other numbers,
including negative ones, pass through unchanged. -/
def jsOrZero : JsNum → ℚ
  | JsNum.nan => 0
  | JsNum.num q => q

/-- The JS idiom `o || d` for an optionally-present string: `null`/`undefined`
and the empty string (both falsy) yield the default `d`. -/
def jsOrStr (o : Option String) (d : String) : String :=
  match o with
  | some s => if s = "" then d else s
  | none => d

/-- The JS idiom `o || d` for an optionally-present number used as a `Nat`
(pagination metadata): `null`/`undefined` and `0` yield the default. -/
def jsOrNat (o : Option Nat) (d : Nat) : Nat :=
  match o with
  | some n => if n = 0 then d else n
  | none => d

/-- A requirement record as consumed by `Dashboard.js` (field names follow
the source: the free text lives in the `requirement` field, the time
estimate in `estimated_time`). -/
structure Requirement where
  id : String
  requirement : String
  status : String
  priority : String
  complexity : String
  author : String
  date : String
  estimated_time : JsNum
deriving DecidableEq

/-- A project record (`Dashboard.js` reads `id`, `name`, `hourly_rate`). -/
structure Project where
  id : Int
  name : String
  hourly_rate : ℚ
deriving DecidableEq

/-- A `StatsSummary` (`overallStats` / `filteredStats` in `Dashboard.js`). -/
structure Stats where
  total : Nat
  approved : Nat
  inReview : Nat
  disapproved : Nat
deriving DecidableEq

/-- Pagination metadata (`pagination` state in `Dashboard.js`). -/
structure Pagination where
  page : Nat
  pages : Nat
  total : Nat
deriving DecidableEq

/-- The four multi-select filter sets (`filters` state in `Dashboard.js`,
lines 14 and 116-124). -/
structure Filters where
  type : List String
  status : List String
  complexity : List String
  priority : List String
deriving DecidableEq

/-- A cost summary (`calculateCosts` result, `Dashboard.js` lines 28-34). -/
structure Costs where
  totalHours : ℚ
  totalCost : ℚ
deriving DecidableEq

/-- `calculateCosts` (`Dashboard.js` lines 28-34):
`totalHours = reqs.reduce((sum, req) => sum + (req.estimated_time || 0), 0)`
and `totalCost = totalHours * hourlyRate`. -/
def calculateCosts (reqs : List Requirement) (hourlyRate : ℚ) : Costs :=
  let totalHours := reqs.foldl (fun sum req => sum + jsOrZero req.estimated_time) 0
  { totalHours := totalHours, totalCost := totalHours * hourlyRate }

/-- The filtered stats computed from a fetched page of requirements
(`Dashboard.js` lines 88-94): length of the list and `filter(...).length`
counts for the `Approved`, `Review` and `Disapproved` statuses. -/
def filteredStatsOf (reqs : List Requirement) : Stats :=
  { total := reqs.length
    approved := (reqs.filter (fun r => r.status == "Approved")).length
    inReview := (reqs.filter (fun r => r.status == "Review")).length
    disapproved := (reqs.filter (fun r => r.status == "Disapproved")).length }

/-- `selectedProjectData = projects.find(p => p.id === selectedProject)`
(`Dashboard.js` line 23); a `null` selection matches no project. -/
def selectedProjectData (projects : List Project) (selectedProject : Option Int) : Option Project :=
  projects.find? (fun p => some p.id == selectedProject)

/-- `hourlyRate = selectedProjectData?.hourly_rate || 0` (`Dashboard.js`
line 24); on `ℚ` the `|| 0` guard only turns `0` into `0`, so it is the
plain default. -/
def hourlyRateOf (projects : List Project) (selectedProject : Option Int) : ℚ :=
  match selectedProjectData projects selectedProject with
  | some p => p.hourly_rate
  | none => 0

/-- The `Dashboard` component state (`useState` hooks, `Dashboard.js`
lines 10-19). -/
structure DashState where
  requirements : List Requirement
  overallStats : Stats
  filteredStats : Stats
  searchQuery : String
  filters : Filters
  loading : Bool
  error : String
  pagination : Pagination
  selectedProject : Option Int
  projects : List Project
deriving DecidableEq

/-- `const currentCosts = calculateCosts(requirements)` (`Dashboard.js`
line 36), with `hourlyRate` the derived value of line 24. -/
def currentCosts (st : DashState) : Costs :=
  calculateCosts st.requirements (hourlyRateOf st.projects st.selectedProject)

/-- `const overallCosts = calculateCosts(requirements)` (`Dashboard.js`
line 37): computed from the same displayed `requirements` list as
`currentCosts`, not from any project-wide data. -/
def overallCosts (st : DashState) : Costs :=
  calculateCosts st.requirements (hourlyRateOf st.projects st.selectedProject)

/-- The body of a successful `GET /api/requirements` response as read by
`fetchRequirements` (`Dashboard.js` lines 88-102); each field may be absent
(`Option`) and is defaulted with `||`. -/
structure ListResponse where
  requirements : Option (List Requirement)
  page : Option Nat
  pages : Option Nat
  total : Option Nat

/-- The success branch of `fetchRequirements` (`Dashboard.js` lines 88-102
plus the `finally` of line 107-109): stores the returned page, recomputes
the filtered stats from it, resets pagination from the response with
defaults `1/1/0`, and clears the loading flag.  The error banner is not
touched here (it was cleared at the start of the fetch, line 74). -/
def applyFetchSuccess (st : DashState) (resp : ListResponse) : DashState :=
  let freqs := resp.requirements.getD []
  { st with
    requirements := freqs
    filteredStats := filteredStatsOf freqs
    pagination :=
      { page := jsOrNat resp.page 1
        pages := jsOrNat resp.pages 1
        total := jsOrNat resp.total 0 }
    loading := false }

/-- The catch branch of `fetchRequirements` (`Dashboard.js` lines 103-109):
`setError(error.response?.data?.error || 'Failed to load requirements')`,
`setRequirements([])`, and `setLoading(false)` in the `finally`.
`serverMsg` is the optional `error.response?.data?.error` string. -/
def applyFetchFailure (st : DashState) (serverMsg : Option String) : DashState :=
  { st with
    error := jsOrStr serverMsg "Failed to load requirements"
    requirements := []
    loading := false }

/-- One observable event of the list-fetch lifecycle: `issue n` is request
number `n` starting its network call (after its debounce timer fired;
`setLoading(true)`/`setError('')`, `Dashboard.js` lines 73-74), and
`arrive n resp` is request `n`'s response coming back.  The source carries
no request identity check, so the handler for an arrival applies the
response unconditionally — `n` is recorded only to talk about ordering. -/
inductive FetchEvent where
  | issue : Nat → FetchEvent
  | arrive : Nat → ListResponse → FetchEvent

/-- Run a sequence of fetch-lifecycle events against the component state,
exactly as the closures in `fetchRequirements` do: an issue sets
`loading := true` and clears the error banner; an arrival runs the success
branch with no staleness test (`Dashboard.js` lines 69-114 contain no
request-sequence counter or cancellation of in-flight calls). -/
def processEvents (st : DashState) : List FetchEvent → DashState
  | [] => st
  | FetchEvent.issue _ :: rest =>
      processEvents { st with loading := true, error := "" } rest
  | FetchEvent.arrive _ resp :: rest =>
      processEvents (applyFetchSuccess st resp) rest

/-- One of the four filter categories (`Dashboard.js` line 14). -/
inductive FilterKey where
  | type | status | complexity | priority
deriving DecidableEq

/-- Read one filter set. -/
def getFilter (f : Filters) : FilterKey → List String
  | FilterKey.type => f.type
  | FilterKey.status => f.status
  | FilterKey.complexity => f.complexity
  | FilterKey.priority => f.priority

/-- Replace one filter set. -/
def setFilter (f : Filters) : FilterKey → List String → Filters
  | FilterKey.type, l => { f with type := l }
  | FilterKey.status, l => { f with status := l }
  | FilterKey.complexity, l => { f with complexity := l }
  | FilterKey.priority, l => { f with priority := l }

/-- The toggle inside `handleFilterChange` (`Dashboard.js` lines 117-122):
`prev[filterType].includes(value) ? prev[filterType].filter(f => f !== value)
: [...prev[filterType], value]`. -/
def toggleFilter (l : List String) (v : String) : List String :=
  if l.contains v then l.filter (fun x => x != v) else l ++ [v]

/-- `handleFilterChange` (`Dashboard.js` lines 116-124): toggles the value
in the chosen filter set and resets `pagination.page` to 1. -/
def handleFilterChange (st : DashState) (k : FilterKey) (v : String) : DashState :=
  { st with
    filters := setFilter st.filters k (toggleFilter (getFilter st.filters k) v)
    pagination := { st.pagination with page := 1 } }

/-- The search box mutation (`Dashboard.js` line 382):
`onChange={(e) => setSearchQuery(e.target.value)}` — it sets only
`searchQuery` and touches no other state. -/
def setSearchQuery (st : DashState) (s : String) : DashState :=
  { st with searchQuery := s }

/-- `isValidProjectId` (`Dashboard.js` line 26):
`Number.isInteger(id) && id > 0`, with `null` modelled as `none`. -/
def isValidProjectId : Option Int → Bool
  | some id => id > 0
  | none => false

/-- `handleProjectChange` (`Dashboard.js` lines 217-221), after `parseInt`:
`setSelectedProject(isValidProjectId(projectId) ? projectId : null)` —
it sets only `selectedProject` and touches no other state. -/
def handleProjectChange (st : DashState) (projectId : Option Int) : DashState :=
  { st with selectedProject := if isValidProjectId projectId then projectId else none }

/-- The `Next` button of `PaginationControls` (`Dashboard.js` line 489):
`onPageChange(prev => ({ ...prev, page: prev.page + 1 }))`. -/
def nextPage (st : DashState) : DashState :=
  { st with pagination := { st.pagination with page := st.pagination.page + 1 } }

/-- The `Previous` button of `PaginationControls` (`Dashboard.js` line 475):
`onPageChange(prev => ({ ...prev, page: prev.page - 1 }))`. -/
def prevPage (st : DashState) : DashState :=
  { st with pagination := { st.pagination with page := st.pagination.page - 1 } }

/-- The query descriptor the list fetch depends on: the dependency array of
the effect, `[selectedProject, searchQuery, filters, pagination.page]`
(`Dashboard.js` line 114). -/
structure QueryDesc where
  project : Option Int
  search : String
  filters : Filters
  page : Nat
deriving DecidableEq

/-- State of the debounce machinery of `Dashboard.js` lines 112-113:
`pending` is the timer armed by `setTimeout(fetchRequirements, 500)`
(its absolute deadline and the query descriptor its closure captured);
`calls` is the list of network requests that have actually fired, in
order, each recorded by its descriptor. -/
structure DebounceState where
  pending : Option (Nat × QueryDesc)
  calls : List QueryDesc
deriving DecidableEq

/-- A timer whose deadline has passed fires before anything else happens at
time `now` (the JS event loop runs due timer callbacks first). -/
def fireIfDue (s : DebounceState) (now : Nat) : DebounceState :=
  match s.pending with
  | some (deadline, q) =>
      if deadline ≤ now then { pending := none, calls := s.calls ++ [q] }
      else s
  | none => s

/-- A query-change event at time `t` with new descriptor `q`: React runs the
effect cleanup `clearTimeout(debounceTimer)` (which drops a still-pending
timer and is a no-op for one that already fired) and then the effect body
arms `setTimeout(fetchRequirements, 500)` (`Dashboard.js` lines 112-113). -/
def onQueryChange (s : DebounceState) (t : Nat) (q : QueryDesc) : DebounceState :=
  let s' := fireIfDue s t
  { pending := some (t + 500, q), calls := s'.calls }

/-- Run a time-ordered sequence of query-change events. -/
def runChanges (s : DebounceState) : List (Nat × QueryDesc) → DebounceState
  | [] => s
  | (t, q) :: rest => runChanges (onQueryChange s t q) rest

/-- After the stream of changes goes quiet the armed timer eventually
fires; `flushAll` returns every network call that fires, in order. -/
def flushAll (s : DebounceState) : List QueryDesc :=
  match s.pending with
  | some (_, q) => s.calls ++ [q]
  | none => s.calls

/-- The last element of `a :: l`. -/
def lastD (a : Nat × QueryDesc) : List (Nat × QueryDesc) → Nat × QueryDesc
  | [] => a
  | b :: l => lastD b l

/-- Events all landing inside one debounce window: starting from an event
at time `t`, each following event happens after the previous one but
before the previous one's 500 ms timer can fire. -/
def withinWindow : Nat → List (Nat × QueryDesc) → Prop
  | _, [] => True
  | t, (t', _) :: rest => t ≤ t' ∧ t' < t + 500 ∧ withinWindow t' rest

/-- The double-quote character (codepoint 34). -/
def dquoteChar : Char := Char.ofNat 34

/-- `text.replace(/"/g, '""')` (`Dashboard.js` line 142): double every
double-quote. -/
def escQuotes : List Char → List Char
  | [] => []
  | c :: cs => if c = dquoteChar then dquoteChar :: dquoteChar :: escQuotes cs else c :: escQuotes cs

/-- The CSV quoting of the requirement text, `` `"${...}"` `` around the
escaped text (`Dashboard.js` line 142). -/
def csvQuote (s : List Char) : List Char :=
  dquoteChar :: (escQuotes s ++ [dquoteChar])

/-- Decimal digits of an integer (sign then base-10 digits). -/
def intRepr (i : Int) : List Char :=
  if i < 0 then '-' :: Nat.toDigits 10 i.natAbs else Nat.toDigits 10 i.natAbs

/-- Two-digit zero-padded rendering of a value below 100. -/
def natPad2 (n : Nat) : List Char :=
  if n < 10 then '0' :: Nat.toDigits 10 n else Nat.toDigits 10 n

/-- Render a non-negative number of cents as `d.cc`. -/
def centsRepr (c : Nat) : List Char :=
  Nat.toDigits 10 (c / 100) ++ '.' :: natPad2 (c % 100)

/-- Floor of a rational, written with Euclidean integer division so that it
evaluates inside the kernel (`den` is positive, so this is the floor). -/
def ratFloor (q : ℚ) : ℤ := Int.ediv q.num q.den

/-- JS `Number.prototype.toFixed(2)`, modelled for the exact decimal values
the dashboard manipulates: round to the nearest cent (halves away from
zero) and print with exactly two decimals. -/
def toFixed2 (q : ℚ) : List Char :=
  if q < 0 then '-' :: centsRepr (Int.toNat (ratFloor ((-q) * 100 + 1 / 2)))
  else centsRepr (Int.toNat (ratFloor (q * 100 + 1 / 2)))

/-- JS number-to-string coercion as performed by `Array.prototype.join`,
modelled exactly for the integral values the export flow produces; a
non-integral rational is rendered as `num/den` (never reached by the
modelled flows, which only join integral hour counts). -/
def qRepr (q : ℚ) : List Char :=
  if q.den = 1 then intRepr q.num else intRepr q.num ++ '/' :: Nat.toDigits 10 q.den

/-- String coercion of a `JsNum` field written raw into a CSV row. -/
def jsNumRepr : JsNum → List Char
  | JsNum.nan => "NaN".data
  | JsNum.num q => qRepr q

/-- `req.estimated_time * hourlyRate` (`Dashboard.js` line 139): a `NaN`
operand propagates. -/
def jsMul (x : JsNum) (r : ℚ) : JsNum :=
  match x with
  | JsNum.nan => JsNum.nan
  | JsNum.num q => JsNum.num (q * r)

/-- `toFixed(2)` on a possibly-`NaN` value (JS renders `"NaN"`). -/
def jsToFixed2 : JsNum → List Char
  | JsNum.nan => "NaN".data
  | JsNum.num q => toFixed2 q

/-- `new Date(req.date).toISOString().split('T')[0]` (`Dashboard.js`
line 147), modelled for ISO-formatted UTC date strings (the dashboard's
`date` values): parsing such a string and re-serializing it yields the
string itself up to the `T`, so the date part is everything before the
first `T`. -/
def formatDate (d : List Char) : List Char :=
  d.takeWhile (fun c => c != 'T')

/-- The row matrix built by `exportData` (`Dashboard.js` lines 129-156
before `.map(e => e.join(','))`): metadata rows, a blank row, the column
header, one row per requirement in order, a blank row, and the two totals
rows. -/
def exportRows (p : Project) (reqs : List Requirement) : List (List (List Char)) :=
  let rate := p.hourly_rate
  let totalHours := reqs.foldl (fun sum req => sum + jsOrZero req.estimated_time) 0
  let totalCost := totalHours * rate
  [ ["Project Name".data, p.name.data],
    ["Hourly Rate".data, '$' :: toFixed2 rate],
    [],
    ["ID".data, "Requirement".data, "Status".data, "Priority".data,
     "Complexity".data, "Author".data, "Date".data, "Hours".data,
     "Cost".data, "Cost/Hour".data] ]
  ++ reqs.map (fun req =>
        let cost := jsMul req.estimated_time rate
        [ req.id.data,
          csvQuote req.requirement.data,
          req.status.data,
          req.priority.data,
          req.complexity.data,
          req.author.data,
          formatDate req.date.data,
          jsNumRepr req.estimated_time,
          '$' :: jsToFixed2 cost,
          '$' :: toFixed2 rate ])
  ++ [ [], ["Total Hours".data, qRepr totalHours], ["Total Cost".data, '$' :: toFixed2 totalCost] ]

/-- `csvContent = rows.map(e => e.join(',')).join('\n')` (`Dashboard.js`
line 156). -/
def exportCsv (p : Project) (reqs : List Requirement) : List Char :=
  List.intercalate ['\n'] ((exportRows p reqs).map (fun row => List.intercalate [','] row))

/-- `exportData` (`Dashboard.js` lines 126-166): bails out iff no project
is selected (`if (!selectedProjectData) return;` — there is no guard on
the requirement list), otherwise produces the CSV document. `none` means
no document was produced. -/
def exportData (selProject : Option Project) (reqs : List Requirement) : Option (List Char) :=
  match selProject with
  | none => none
  | some p => some (exportCsv p reqs)

/-- JS `String.prototype.startsWith` on character lists (pattern first). -/
def isPre : List Char → List Char → Bool
  | [], _ => true
  | _ :: _, [] => false
  | p :: ps, h :: hs => p == h && isPre ps hs

/-- JS `String.prototype.includes` on character lists (pattern first):
the pattern occurs as a contiguous substring of the haystack. -/
def hasSub (pat : List Char) : List Char → Bool
  | [] => isPre pat []
  | h :: t => isPre pat (h :: t) || hasSub pat t

/-- The guidance line appended for `"Unauthorized"` (`Dashboard.js`
line 205). -/
def reconnectMsg : List Char := "\n\nPlease reconnect Jira integration".data

/-- The guidance line appended for `"projectKey"` (`Dashboard.js`
line 208). -/
def verifyKeyMsg : List Char := "\n\nVerify project key exists in Jira".data

/-- The guidance line appended for `"issuetype"` (`Dashboard.js`
line 211). -/
def issueTypesMsg : List Char := "\n\nCheck project has valid issue types".data

/-- The substring that triggers the reconnect guidance. -/
def unauthorizedPat : List Char := "Unauthorized".data

/-- The substring that triggers the verify-project-key guidance. -/
def projectKeyPat : List Char := "projectKey".data

/-- The substring that triggers the check-issue-types guidance. -/
def issuetypePat : List Char := "issuetype".data

/-- The error-classification pass of `pushToJira` (`Dashboard.js`
lines 202-212): starting from the raw error text, three sequential
independent `if (errorMessage.includes(...))` checks, each appending its
guidance to the (possibly already extended) message. -/
def classifyPushError (e : List Char) : List Char :=
  let m1 := if hasSub unauthorizedPat e then e ++ reconnectMsg else e
  let m2 := if hasSub projectKeyPat m1 then m1 ++ verifyKeyMsg else m1
  let m3 := if hasSub issuetypePat m2 then m2 ++ issueTypesMsg else m2
  m3

/-- The project of the export reference scenario. -/
def acmeProject : Project := { id := 1, name := "Acme Co", hourly_rate := 50 }

/-- The single requirement of the export reference scenario. -/
def acmeReq : Requirement :=
  { id := "abc123", requirement := "He said \"hi\"", status := "Approved"
    priority := "High", complexity := "Low", author := "Jo"
    date := "2024-01-05", estimated_time := JsNum.num 2 }

/-- A requirement with a negative time estimate (the remote source is not
prevented from delivering one). -/
def negReq : Requirement :=
  { id := "neg1", requirement := "negative estimate", status := "Draft"
    priority := "Low", complexity := "Low", author := "Jo"
    date := "2024-01-05", estimated_time := JsNum.num (-5) }

/-- The initial component state (the `useState` defaults of `Dashboard.js`
lines 10-19). -/
def st0 : DashState :=
  { requirements := []
    overallStats := { total := 0, approved := 0, inReview := 0, disapproved := 0 }
    filteredStats := { total := 0, approved := 0, inReview := 0, disapproved := 0 }
    searchQuery := ""
    filters := { type := [], status := [], complexity := [], priority := [] }
    loading := false
    error := ""
    pagination := { page := 1, pages := 1, total := 0 }
    selectedProject := none
    projects := [] }

/-- A component state sitting on page 3 of a result set. -/
def stPage3 : DashState :=
  { st0 with
    selectedProject := some 1
    pagination := { page := 3, pages := 5, total := 42 } }

/-- Requirement returned by the slower, earlier request of the staleness
scenario. -/
def reqA : Requirement :=
  { id := "a1", requirement := "old data", status := "Draft"
    priority := "Low", complexity := "Low", author := "Jo"
    date := "2024-01-05", estimated_time := JsNum.num 1 }

/-- Requirement returned by the faster, later request of the staleness
scenario. -/
def reqB : Requirement :=
  { id := "b2", requirement := "new data", status := "Approved"
    priority := "High", complexity := "Low", author := "Jo"
    date := "2024-01-06", estimated_time := JsNum.num 2 }

/-- Response of the earlier request `R1`. -/
def resp1 : ListResponse :=
  { requirements := some [reqA], page := some 1, pages := some 1, total := some 1 }

/-- Response of the later request `R2`. -/
def resp2 : ListResponse :=
  { requirements := some [reqB], page := some 1, pages := some 1, total := some 1 }

/-- A query descriptor used by the debounce witness scenario. -/
def qA : QueryDesc :=
  { project := some 1, search := "a"
    filters := { type := [], status := [], complexity := [], priority := [] }, page := 1 }

/-- The descriptor of the last change in the debounce witness scenario. -/
def qB : QueryDesc :=
  { project := some 1, search := "ab"
    filters := { type := [], status := [], complexity := [], priority := [] }, page := 1 }

/-- Summing estimates with `reduce`/`foldl` equals the sum of the mapped
estimates (accumulator-generalized form). -/
theorem foldlAddEqSum (f : Requirement → ℚ) (l : List Requirement) :
    ∀ a : ℚ, l.foldl (fun sum r => sum + f r) a = a + (l.map f).sum := by
  induction l with
  | nil => intro a; simp
  | cons r t ih =>
    intro a
    simp only [List.foldl_cons, List.map_cons, List.sum_cons, ih (a + f r)]
    ring

/-- The three status counts of a page are bounded by its length. -/
theorem statusCountsLe (R : List Requirement) :
    (R.filter (fun r => r.status == "Approved")).length
      + (R.filter (fun r => r.status == "Review")).length
      + (R.filter (fun r => r.status == "Disapproved")).length ≤ R.length := by
  induction R with
  | nil => simp
  | cons r t ih =>
    by_cases hA : r.status = "Approved" <;>
      by_cases hR : r.status = "Review" <;>
        by_cases hD : r.status = "Disapproved" <;>
          simp_all [List.filter_cons] <;> omega

/-- Claim C7: the stats aggregation over a requirement list yields
`total = length`, and `approved`/`inReview`/`disapproved` equal the number
of records whose status is `"Approved"`/`"Review"`/`"Disapproved"`
respectively; the three counts together never exceed `total` (`"Draft"`
records count only toward `total`).  The aggregation is a pure function of
the list, hence deterministic and idempotent. -/
theorem statsAggregation (R : List Requirement) :
    (filteredStatsOf R).total = R.length ∧
    (filteredStatsOf R).approved = R.countP (fun r => r.status == "Approved") ∧
    (filteredStatsOf R).inReview = R.countP (fun r => r.status == "Review") ∧
    (filteredStatsOf R).disapproved = R.countP (fun r => r.status == "Disapproved") ∧
    (filteredStatsOf R).approved + (filteredStatsOf R).inReview
      + (filteredStatsOf R).disapproved ≤ (filteredStatsOf R).total := by
  refine ⟨rfl, ?_, ?_, ?_, ?_⟩
  · simp [filteredStatsOf, List.countP_eq_length_filter]
  · simp [filteredStatsOf, List.countP_eq_length_filter]
  · simp [filteredStatsOf, List.countP_eq_length_filter]
  · simpa [filteredStatsOf] using statusCountsLe R

/-- Claim C10: both cost summaries rendered by the two `StatSection`s are
`calculateCosts(requirements)` over the same displayed page
(`Dashboard.js` lines 36-37), so they are always identical, and the
"overall" one does not read the project-wide `overallStats` at all. -/
theorem overallCostsEqualCurrent (st : DashState) (os : Stats) :
    overallCosts st = currentCosts st ∧
    overallCosts st
      = calculateCosts st.requirements (hourlyRateOf st.projects st.selectedProject) ∧
    overallCosts { st with overallStats := os } = overallCosts st ∧
    currentCosts { st with overallStats := os } = currentCosts st :=
  ⟨rfl, rfl, rfl, rfl⟩

/-- Counterexample to claim C8: the `|| 0` guard in `calculateCosts`
(`Dashboard.js` line 29) does not clamp negative estimates — a requirement
with `estimated_time = -5` at rate 10 produces `totalHours = -5` and the
negative cost `-50`. -/
theorem negativeHoursNotClamped_cex :
    (calculateCosts [negReq] 10).totalHours = -5 ∧
    (calculateCosts [negReq] 10).totalCost = -50 ∧
    (calculateCosts [negReq] 10).totalCost < 0 := by
  norm_num [calculateCosts, negReq, jsOrZero]

/-- Claim C8 (amended): `calculateCosts` sums `estimated_time || 0` — the
guard replaces only JS-falsy values (`NaN`/`null`/`undefined`, modelled by
`JsNum.nan`, and `0` itself) with `0`, while negative values pass through —
and multiplies the total by the rate; on the empty list it yields `{0, 0}`,
and when every estimate and the rate are non-negative the totals are
non-negative. -/
theorem calculateCostsBehavior :
    (∀ rate : ℚ, calculateCosts [] rate = { totalHours := 0, totalCost := 0 }) ∧
    (∀ (reqs : List Requirement) (rate : ℚ),
      (calculateCosts reqs rate).totalHours
        = (reqs.map (fun r => jsOrZero r.estimated_time)).sum ∧
      (calculateCosts reqs rate).totalCost
        = (calculateCosts reqs rate).totalHours * rate) ∧
    jsOrZero JsNum.nan = 0 ∧
    (∀ q : ℚ, jsOrZero (JsNum.num q) = q) ∧
    (∀ (reqs : List Requirement) (rate : ℚ), 0 ≤ rate →
      (∀ r ∈ reqs, 0 ≤ jsOrZero r.estimated_time) →
      0 ≤ (calculateCosts reqs rate).totalHours
        ∧ 0 ≤ (calculateCosts reqs rate).totalCost) := by
  refine ⟨?_, ?_, rfl, fun q => rfl, ?_⟩
  · intro rate
    simp [calculateCosts]
  · intro reqs rate
    constructor
    · simp [calculateCosts, foldlAddEqSum]
    · rfl
  · intro reqs rate hrate hnn
    have hH : 0 ≤ (calculateCosts reqs rate).totalHours := by
      have hsum : 0 ≤ (reqs.map (fun r => jsOrZero r.estimated_time)).sum := by
        apply List.sum_nonneg
        intro x hx
        obtain ⟨r, hr, rfl⟩ := List.mem_map.mp hx
        exact hnn r hr
      simpa [calculateCosts, foldlAddEqSum] using hsum
    exact ⟨hH, mul_nonneg hH hrate⟩

/-- Witness for the amended C8 theorem at a concrete input. -/
theorem calculateCostsBehavior_wit :
    (0 : ℚ) ≤ 50 ∧ (∀ r ∈ [acmeReq], 0 ≤ jsOrZero r.estimated_time) ∧
    (0 ≤ (calculateCosts [acmeReq] 50).totalHours
      ∧ 0 ≤ (calculateCosts [acmeReq] 50).totalCost) :=
  ⟨by decide, by decide, calculateCostsBehavior.2.2.2.2 [acmeReq] 50 (by decide) (by decide)⟩

/-- Counterexample to claim C2: mutating the search text (and likewise the
selected project) does not reset the page cursor — from a state on page 3,
typing a new search leaves `page = 3`.  Only `handleFilterChange` resets
the page (`Dashboard.js` line 123); the search box handler (line 382) and
`handleProjectChange` (lines 217-221) touch no pagination state. -/
theorem searchMutationKeepsPage_cex :
    (setSearchQuery stPage3 "alpha").searchQuery = "alpha" ∧
    stPage3.searchQuery ≠ "alpha" ∧
    (setSearchQuery stPage3 "alpha").pagination.page = 3 ∧
    (setSearchQuery stPage3 "alpha").pagination.page ≠ 1 ∧
    (handleProjectChange stPage3 (some 2)).selectedProject = some 2 ∧
    stPage3.selectedProject ≠ some 2 ∧
    (handleProjectChange stPage3 (some 2)).pagination.page ≠ 1 := by
  decide

/-- Claim C2 (amended): only a filter mutation resets `page` to 1 (leaving
search text and project selection unchanged); mutating the search text or
the selected project leaves the page — and every other query field — as it
was; a page-only mutation leaves search text, filters and project
untouched. -/
theorem queryMutationPageBehavior (st : DashState) (k : FilterKey) (v : String)
    (s : String) (pid : Option Int) :
    (handleFilterChange st k v).pagination.page = 1 ∧
    (handleFilterChange st k v).searchQuery = st.searchQuery ∧
    (handleFilterChange st k v).selectedProject = st.selectedProject ∧
    getFilter (handleFilterChange st k v).filters k
      = toggleFilter (getFilter st.filters k) v ∧
    (setSearchQuery st s).searchQuery = s ∧
    (setSearchQuery st s).filters = st.filters ∧
    (setSearchQuery st s).selectedProject = st.selectedProject ∧
    (setSearchQuery st s).pagination = st.pagination ∧
    (handleProjectChange st pid).searchQuery = st.searchQuery ∧
    (handleProjectChange st pid).filters = st.filters ∧
    (handleProjectChange st pid).pagination = st.pagination ∧
    (nextPage st).searchQuery = st.searchQuery ∧
    (nextPage st).filters = st.filters ∧
    (nextPage st).selectedProject = st.selectedProject ∧
    (prevPage st).searchQuery = st.searchQuery ∧
    (prevPage st).filters = st.filters ∧
    (prevPage st).selectedProject = st.selectedProject := by
  cases k <;>
    simp [handleFilterChange, setSearchQuery, handleProjectChange, nextPage,
      prevPage, getFilter, setFilter]

/-- Counterexample to claim C5: `exportData` only bails out when no project
is selected (`Dashboard.js` line 127); invoked with a selected project and
an empty requirement list it still produces a document. -/
theorem exportEmptyListProducesDoc_cex :
    exportData (some acmeProject) [] ≠ none ∧ exportData none [] = none := by
  constructor
  · simp [exportData]
  · rfl

/-- Claim C5 (amended): invoking the export with no project selected is a
no-op producing no document; with a project selected the encoder always
produces a document, even when the requirement list is empty (emptiness is
prevented only by the UI disabling the export button, `Dashboard.js`
line 247). -/
theorem exportDataGuard (p : Project) (reqs : List Requirement) :
    exportData none reqs = none ∧
    exportData (some p) reqs = some (exportCsv p reqs) ∧
    exportData (some p) [] ≠ none := by
  refine ⟨rfl, rfl, by simp [exportData]⟩

/-- Claim C6: a failing list fetch clears the requirement list, sets the
error message to the server-supplied one when a non-empty one is present
in the response body (JS `||` treats an empty string as absent) and to the
generic fallback otherwise, and clears the loading flag; the success exit
path also ends with `loading = false`. -/
theorem fetchFailureState (st : DashState) (m : String) (hm : m ≠ "")
    (resp : ListResponse) :
    (applyFetchFailure st (some m)).requirements = [] ∧
    (applyFetchFailure st (some m)).error = m ∧
    (applyFetchFailure st (some m)).loading = false ∧
    (applyFetchFailure st none).requirements = [] ∧
    (applyFetchFailure st none).error = "Failed to load requirements" ∧
    (applyFetchFailure st none).loading = false ∧
    (applyFetchSuccess st resp).loading = false := by
  simp [applyFetchFailure, applyFetchSuccess, jsOrStr, hm]

/-- Witness for the C6 theorem at a concrete state and server message. -/
theorem fetchFailureState_wit :
    (applyFetchFailure st0 (some "boom")).requirements = [] ∧
    (applyFetchFailure st0 (some "boom")).error = "boom" ∧
    (applyFetchFailure st0 (some "boom")).loading = false ∧
    (applyFetchSuccess st0 resp1).loading = false := by
  have h := fetchFailureState st0 "boom" (by decide) resp1
  exact ⟨h.1, h.2.1, h.2.2.1, h.2.2.2.2.2.2⟩

set_option maxRecDepth 4000 in
/-- Claim C4: for the reference project and requirement, the export encoder
produces exactly the specified document — in particular the requirement
row with CSV-escaped text, ISO date, raw hours, and money formatted as
`$` plus two decimals, followed by the two totals rows; fields are
comma-joined and rows newline-joined. -/
theorem exportEncoderAcmeRow :
    exportCsv acmeProject [acmeReq]
      = ("Project Name,Acme Co\nHourly Rate,$50.00\n\nID,Requirement,Status,Priority,Complexity,Author,Date,Hours,Cost,Cost/Hour\nabc123,\"He said \"\"hi\"\"\",Approved,High,Low,Jo,2024-01-05,2,$100.00,$50.00\n\nTotal Hours,2\nTotal Cost,$100.00").data ∧
    (List.intercalate [','] ["abc123".data, csvQuote "He said \"hi\"".data,
        "Approved".data, "High".data, "Low".data, "Jo".data, "2024-01-05".data,
        "2".data, "$100.00".data, "$50.00".data])
      = ("abc123,\"He said \"\"hi\"\"\",Approved,High,Low,Jo,2024-01-05,2,$100.00,$50.00").data := by
  have h02 : (0 : ℚ) + 2 = 2 := by norm_num
  have hcost : (2 : ℚ) * 50 = 100 := by norm_num
  have htf50 : toFixed2 50 = "50.00".data := by
    norm_num [toFixed2, ratFloor, centsRepr, natPad2]
    decide
  have htf100 : toFixed2 100 = "100.00".data := by
    norm_num [toFixed2, ratFloor, centsRepr, natPad2]
    decide
  have hq2 : qRepr 2 = "2".data := by
    norm_num [qRepr, intRepr]
    decide
  constructor
  · simp only [exportCsv, exportRows, acmeProject, acmeReq, List.map, List.foldl,
      jsOrZero, jsMul, jsToFixed2, jsNumRepr, h02, hcost, htf50, htf100, hq2]
    decide
  · decide

/-- Counterexample to claim C1: request `R1` is issued, then `R2`; `R2`'s
response arrives and is displayed; when `R1`'s slow response then arrives,
applying it does mutate the displayed state — the requirement list flips
back to `R1`'s stale data, because `fetchRequirements` applies every
response unconditionally (the effect cleanup of `Dashboard.js` line 113
only clears the not-yet-fired debounce timer, it cannot stop an in-flight
request). -/
theorem lateResponseMutatesState_cex :
    (processEvents st0
        [FetchEvent.issue 1, FetchEvent.issue 2, FetchEvent.arrive 2 resp2]).requirements
      = [reqB] ∧
    (processEvents st0
        [FetchEvent.issue 1, FetchEvent.issue 2, FetchEvent.arrive 2 resp2,
          FetchEvent.arrive 1 resp1]).requirements
      = [reqA] ∧
    reqA ≠ reqB ∧
    processEvents st0
        [FetchEvent.issue 1, FetchEvent.issue 2, FetchEvent.arrive 2 resp2,
          FetchEvent.arrive 1 resp1]
      ≠ processEvents st0
          [FetchEvent.issue 1, FetchEvent.issue 2, FetchEvent.arrive 2 resp2] := by
  decide

/-- Claim C1 (amended): the displayed state always reflects the most
recently *arrived* list response, not the most recently issued request —
whatever requests were issued before, an arriving response is applied
unconditionally on top of the current state.  (Superseding a request
prevents its network call only while its debounce timer has not yet fired;
see the debounce theorems.) -/
theorem lastArrivalWins (st : DashState) (trace : List FetchEvent) (n : Nat)
    (resp : ListResponse) :
    processEvents st (trace ++ [FetchEvent.arrive n resp])
      = applyFetchSuccess (processEvents st trace) resp := by
  induction trace generalizing st with
  | nil => rfl
  | cons e t ih => cases e <;> simp [processEvents, ih]

/-- Inside one debounce window no armed timer ever fires: each event finds
the previous timer still pending, cancels it, and arms its own. -/
theorem runChangesWithin (rest : List (Nat × QueryDesc)) :
    ∀ (t : Nat) (q : QueryDesc) (cs : List QueryDesc), withinWindow t rest →
      runChanges { pending := some (t + 500, q), calls := cs } rest
        = { pending := some ((lastD (t, q) rest).1 + 500, (lastD (t, q) rest).2)
            calls := cs } := by
  induction rest with
  | nil => intro t q cs _; rfl
  | cons e rest' ih =>
    obtain ⟨t', q'⟩ := e
    intro t q cs h
    obtain ⟨h1, h2, h3⟩ := h
    have hnf : ¬ (t + 500 ≤ t') := by omega
    simp only [runChanges, onQueryChange, fireIfDue, if_neg hnf, lastD]
    exact ih t' q' cs h3

/-- Claim C9: every query-change event cancels the pending scheduled fetch
and schedules a new one 500 ms later; for any sequence of changes falling
within one debounce window, exactly one network request fires and it
carries the descriptor of the last change. -/
theorem debounceSingleCall (t : Nat) (q : QueryDesc)
    (rest : List (Nat × QueryDesc)) (h : withinWindow t rest) :
    flushAll (runChanges { pending := none, calls := [] } ((t, q) :: rest))
      = [(lastD (t, q) rest).2] ∧
    ∀ (s : DebounceState) (t' : Nat) (q' : QueryDesc),
      (onQueryChange s t' q').pending = some (t' + 500, q') := by
  constructor
  · have hrun := runChangesWithin rest t q [] h
    simp only [runChanges, onQueryChange, fireIfDue] at hrun ⊢
    rw [hrun]
    rfl
  · intro s t' q'
    rfl

/-- Witness for the C9 theorem: two changes 100 ms apart yield exactly one
call, with the second descriptor. -/
theorem debounceSingleCall_wit :
    withinWindow 0 [(100, qB)] ∧
    flushAll (runChanges { pending := none, calls := [] } [(0, qA), (100, qB)])
      = [qB] := by
  have h : withinWindow 0 [(100, qB)] := ⟨by omega, by omega, trivial⟩
  refine ⟨h, ?_⟩
  have := (debounceSingleCall 0 qA [(100, qB)] h).1
  simpa [lastD] using this

/-- A pattern not containing `c` matches as a prefix of `xs ++ c :: g` iff
it matches as a prefix of `xs` (it cannot run past the boundary without
containing `c`). -/
theorem isPreAppendHead (c : Char) (g : List Char) :
    ∀ pat : List Char, c ∉ pat → ∀ xs : List Char,
      isPre pat (xs ++ c :: g) = isPre pat xs := by
  intro pat
  induction pat with
  | nil => intro _ xs; cases xs <;> rfl
  | cons p ps ih =>
    intro hc xs
    have hpc : (p == c) = false := by
      simp only [List.mem_cons, not_or] at hc
      simp [beq_eq_false_iff_ne]
      exact fun h => hc.1 h.symm
    cases xs with
    | nil => simp [isPre, hpc]
    | cons a xs' =>
      have hc' : c ∉ ps := by
        simp only [List.mem_cons, not_or] at hc
        exact hc.2
      simp [isPre, ih hc' xs']

/-- Appending a block `c :: g` that does not itself contain the pattern,
whose first character `c` does not occur in the pattern either, neither
creates nor destroys substring matches. -/
theorem hasSubAppendHead (c : Char) (g : List Char) (pat : List Char)
    (hc : c ∉ pat) (hg : hasSub pat (c :: g) = false) :
    ∀ x : List Char, hasSub pat (x ++ c :: g) = hasSub pat x := by
  intro x
  induction x with
  | nil =>
    cases pat with
    | nil => simp [hasSub, isPre] at hg
    | cons p ps => simpa [hasSub, isPre] using hg
  | cons a x' ih =>
    simp only [List.cons_append, hasSub, List.append_eq]
    rw [ih, show a :: (x' ++ c :: g) = (a :: x') ++ c :: g from rfl,
      isPreAppendHead c g pat hc (a :: x')]

/-- Appending the reconnect guidance does not change whether the message
contains `"projectKey"` (the guidance starts with a newline, which the
pattern does not contain). -/
theorem hasSubKeyReconnect (e : List Char) :
    hasSub projectKeyPat (e ++ reconnectMsg) = hasSub projectKeyPat e := by
  have hr : reconnectMsg = '\n' :: "\nPlease reconnect Jira integration".data := by decide
  rw [hr]
  exact hasSubAppendHead '\n' _ projectKeyPat (by decide) (by decide) e

/-- Appending the reconnect guidance does not change whether the message
contains `"issuetype"`. -/
theorem hasSubIssueReconnect (e : List Char) :
    hasSub issuetypePat (e ++ reconnectMsg) = hasSub issuetypePat e := by
  have hr : reconnectMsg = '\n' :: "\nPlease reconnect Jira integration".data := by decide
  rw [hr]
  exact hasSubAppendHead '\n' _ issuetypePat (by decide) (by decide) e

/-- Appending the verify-project-key guidance does not change whether the
message contains `"issuetype"`. -/
theorem hasSubIssueVerify (e : List Char) :
    hasSub issuetypePat (e ++ verifyKeyMsg) = hasSub issuetypePat e := by
  have hr : verifyKeyMsg = '\n' :: "\nVerify project key exists in Jira".data := by decide
  rw [hr]
  exact hasSubAppendHead '\n' _ issuetypePat (by decide) (by decide) e

/-- Appending both guidance lines does not change whether the message
contains `"issuetype"`. -/
theorem hasSubIssueBoth (e : List Char) :
    hasSub issuetypePat (e ++ (reconnectMsg ++ verifyKeyMsg)) = hasSub issuetypePat e := by
  have hr : reconnectMsg ++ verifyKeyMsg
      = '\n' :: ("\nPlease reconnect Jira integration".data
        ++ "\n\nVerify project key exists in Jira".data) := by decide
  rw [hr]
  exact hasSubAppendHead '\n' _ issuetypePat (by decide) (by decide) e

/-- Claim C3: the composed push-failure message is exactly the raw error
text `e` followed by the reconnect guidance iff `e` contains
`"Unauthorized"`, the verify-project-key guidance iff `e` contains
`"projectKey"`, and the check-issue-types guidance iff `e` contains
`"issuetype"` — the three checks are independent and all executed, so all
matching guidance lines are appended, the raw text is always contained as
a prefix, and a text matching none passes through unmodified (all three
`if`s yield `[]`).  Although the source tests each substring against the
already-extended message, the guidance lines start with a newline and
contain none of the trigger substrings, so the tests are equivalent to
tests against the raw text. -/
theorem pushErrorClassification (e : List Char) :
    classifyPushError e
      = e ++ ((if hasSub unauthorizedPat e then reconnectMsg else [])
        ++ ((if hasSub projectKeyPat e then verifyKeyMsg else [])
          ++ (if hasSub issuetypePat e then issueTypesMsg else []))) ∧
    e <+: classifyPushError e := by
  have hmain : classifyPushError e
      = e ++ ((if hasSub unauthorizedPat e then reconnectMsg else [])
        ++ ((if hasSub projectKeyPat e then verifyKeyMsg else [])
          ++ (if hasSub issuetypePat e then issueTypesMsg else []))) := by
    unfold classifyPushError
    by_cases hu : hasSub unauthorizedPat e = true <;>
      by_cases hk : hasSub projectKeyPat e = true <;>
        by_cases hi : hasSub issuetypePat e = true <;>
          simp [hu, hk, hi, Bool.not_eq_true, hasSubKeyReconnect,
            hasSubIssueReconnect, hasSubIssueVerify, hasSubIssueBoth,
            List.append_assoc]
  exact ⟨hmain, hmain ▸ List.prefix_append e _⟩
